import Mathlib

/-!
Verification development for the travel-itinerary assistant.

The suggestion-ranking engine (`GooglePlacesService` in the server's
google-places module) and the itinerary-generation orchestrator
(`generateItinerary` in the openai module, driven by the route handlers
in `routes.ts` over `MemStorage`) are embedded shallowly below.
JavaScript numbers are modelled as real numbers; JavaScript truthiness
of optional numeric / string values (`x && ...`, `x || d`) is modelled
explicitly where the source relies on it.
-/

/-- A raw place as returned by the place-search collaborator
(interface `GooglePlace`): `geometry.location` is flattened into the
`lat`/`lng` fields, and each entry of `photos` is represented by its
`photo_reference` string. -/
structure GooglePlace where
  place_id : String
  name : String
  lat : ℝ
  lng : ℝ
  types : List String
  rating : Option ℝ
  user_ratings_total : Option ℕ
  vicinity : Option String
  photos : Option (List String)

/-- A classified, ranked suggestion (interface `TravelSuggestion`). -/
structure TravelSuggestion where
  id : String
  name : String
  distance : String
  travelTime : String
  type : String
  description : String
  highlights : List String
  bestFor : List String
  rating : ℝ
  location : String
  photos : List String

open Classical in
/-- JavaScript `x || d` for an optional number: `undefined` and `0` are
falsy and select the default. -/
noncomputable def jsNumOr (x : Option ℝ) (d : ℝ) : ℝ :=
  match x with
  | none => d
  | some v => if v = 0 then d else v

/-- JavaScript `x || d` for an optional string: `undefined` and the
empty string are falsy and select the default. -/
def jsStrOr (x : Option String) (d : String) : String :=
  match x with
  | none => d
  | some v => if v = "" then d else v

/-- JavaScript `Math.round`: round half toward positive infinity. -/
noncomputable def jsRound (x : ℝ) : ℤ :=
  ⌊x + 1 / 2⌋

/-- The travel-relevance whitelist (`travelTypes` in
`isValidTravelDestination`). -/
def travelTypes : List String :=
  ["tourist_attraction", "museum", "amusement_park", "zoo", "aquarium",
   "art_gallery", "park", "natural_feature", "point_of_interest",
   "establishment"]

/-- Embeds `GooglePlacesService.isValidTravelDestination`: a place is eligible
iff some of its category tags is whitelisted. -/
def isValidTravelDestination (place : GooglePlace) : Bool :=
  place.types.any (fun t => travelTypes.contains t)

/-- The `typeMap` object of `GooglePlacesService.getPlaceType`. -/
def typeMap : String → Option String
  | "tourist_attraction" => some "Tourist Attraction"
  | "museum" => some "Museum"
  | "amusement_park" => some "Amusement Park"
  | "zoo" => some "Zoo"
  | "aquarium" => some "Aquarium"
  | "art_gallery" => some "Art Gallery"
  | "park" => some "Park"
  | "natural_feature" => some "Natural Feature"
  | "point_of_interest" => some "Point of Interest"
  | _ => none

/-- The `for (const type of place.types)` loop of `getPlaceType`:
return the label of the first tag (in the list's own order) that has an
entry in `typeMap`, else fall through. -/
def getPlaceTypeLoop : List String → String
  | [] => "Attraction"
  | t :: ts =>
    match typeMap t with
    | some label => label
    | none => getPlaceTypeLoop ts

/-- Embeds `GooglePlacesService.getPlaceType`. -/
def getPlaceType (place : GooglePlace) : String :=
  getPlaceTypeLoop place.types

/-- Embeds `GooglePlacesService.generateDescription`: a fixed template around
the lower-cased display type and the place name. -/
def generateDescription (place : GooglePlace) : String :=
  "A popular " ++ (getPlaceType place).toLower ++ " in the area. " ++
    place.name ++
    " offers visitors an authentic local experience and is well-regarded by travelers."

open Classical in
/-- Embeds `GooglePlacesService.generateHighlights`: conditional pushes in
fixed order, truncated to 3.  The guards mirror the JavaScript
truthiness tests `place.rating && place.rating >= 4.5`,
`place.user_ratings_total && place.user_ratings_total > 100` and
`place.photos && place.photos.length > 0`. -/
noncomputable def generateHighlights (place : GooglePlace) : List String :=
  ((if (match place.rating with
        | some r => r ≠ 0 ∧ r ≥ 4.5
        | none => False) then ["Highly rated destination"] else []) ++
   (if (match place.user_ratings_total with
        | some n => n ≠ 0 ∧ n > 100
        | none => False) then ["Popular with visitors"] else []) ++
   (if (match place.photos with
        | some l => l.length > 0
        | none => False) then ["Photo-worthy location"] else []) ++
   (if place.types.contains "museum" then
      ["Educational experience", "Cultural significance"]
    else if place.types.contains "park" then
      ["Outdoor activities", "Nature experience"]
    else if place.types.contains "tourist_attraction" then
      ["Must-see destination", "Local landmark"]
    else [])).take 3

/-- Embeds `GooglePlacesService.determineBestFor`: independent conditional
pushes, a default when nothing matched, truncated to 2. -/
def determineBestFor (place : GooglePlace) : List String :=
  let bestFor :=
    (if place.types.contains "museum" || place.types.contains "art_gallery" then
       ["Culture enthusiasts", "History buffs"] else []) ++
    (if place.types.contains "park" || place.types.contains "natural_feature" then
       ["Nature lovers", "Outdoor activities"] else []) ++
    (if place.types.contains "amusement_park" || place.types.contains "zoo" then
       ["Families", "Adventure seekers"] else []) ++
    (if place.types.contains "tourist_attraction" then
       ["First-time visitors", "Sightseeing"] else [])
  (if bestFor.isEmpty then ["All travelers", "Local exploration"] else bestFor).take 2

/-- JavaScript `Math.atan2` on real (non-NaN, non-signed-zero)
arguments. -/
noncomputable def atan2 (y x : ℝ) : ℝ :=
  if 0 < x then Real.arctan (y / x)
  else if x < 0 ∧ 0 ≤ y then Real.arctan (y / x) + Real.pi
  else if x < 0 ∧ y < 0 then Real.arctan (y / x) - Real.pi
  else if x = 0 ∧ 0 < y then Real.pi / 2
  else if x = 0 ∧ y < 0 then -(Real.pi / 2)
  else 0

/-- Embeds `GooglePlacesService.calculateDistance`: the haversine formula with
Earth radius 6371 km. -/
noncomputable def calculateDistance (lat1 lng1 lat2 lng2 : ℝ) : ℝ :=
  let R : ℝ := 6371
  let dLat := (lat2 - lat1) * Real.pi / 180
  let dLng := (lng2 - lng1) * Real.pi / 180
  let a := Real.sin (dLat / 2) * Real.sin (dLat / 2) +
    Real.cos (lat1 * Real.pi / 180) * Real.cos (lat2 * Real.pi / 180) *
      Real.sin (dLng / 2) * Real.sin (dLng / 2)
  let c := 2 * atan2 (Real.sqrt a) (Real.sqrt (1 - a))
  R * c

open Classical in
/-- The `distanceKm` computation at the head of
`GooglePlacesService.mapPlaceToSuggestion`: the 5 km default is used
unless both requester coordinates are present and truthy (`userLat &&
userLng && place.geometry?.location`; the JavaScript number `0` is
falsy). -/
noncomputable def effectiveDistanceKm (place : GooglePlace)
    (userLat userLng : Option ℝ) : ℝ :=
  match userLat, userLng with
  | some la, some ln =>
    if la = 0 ∨ ln = 0 then 5
    else calculateDistance la ln place.lat place.lng
  | _, _ => 5

/-- The `distanceStr` computation of `mapPlaceToSuggestion`:
`"{Math.round(d*1000)}m"` below 1 km, else `"{d.toFixed(1)}km"`
(one digit after the point, rounded to nearest). -/
noncomputable def distanceStrOf (d : ℝ) : String :=
  if d < 1 then toString (jsRound (d * 1000)) ++ "m"
  else toString (jsRound (d * 10) / 10) ++ "." ++ toString (jsRound (d * 10) % 10) ++ "km"

/-- The `travelTimeStr` computation of `mapPlaceToSuggestion`: minutes
at a fixed 40 km/h, `"{m}min"` below one hour, else
`"{Math.floor(m/60)}h {m%60}min"`. -/
noncomputable def travelTimeStrOf (distanceKm : ℝ) : String :=
  let travelTimeMinutes := jsRound (distanceKm / 40 * 60)
  if travelTimeMinutes < 60 then toString travelTimeMinutes ++ "min"
  else toString (travelTimeMinutes / 60) ++ "h " ++ toString (travelTimeMinutes % 60) ++ "min"

/-- The photo-URL construction of `mapPlaceToSuggestion`
(`place.photos?.slice(0, 3).map(...) || []`). -/
def photoUrls (apiKey : String) (place : GooglePlace) : List String :=
  match place.photos with
  | none => []
  | some refs =>
    (refs.take 3).map (fun r =>
      "https://maps.googleapis.com/maps/api/place/photo?maxwidth=400&photoreference=" ++
        r ++ "&key=" ++ apiKey)

/-- Embeds `GooglePlacesService.mapPlaceToSuggestion`. -/
noncomputable def mapPlaceToSuggestion (apiKey : String) (place : GooglePlace)
    (userLat userLng : Option ℝ) : TravelSuggestion :=
  let distanceKm := effectiveDistanceKm place userLat userLng
  { id := place.place_id
    name := place.name
    distance := distanceStrOf distanceKm
    travelTime := travelTimeStrOf distanceKm
    type := getPlaceType place
    description := generateDescription place
    highlights := generateHighlights place
    bestFor := determineBestFor place
    rating := jsNumOr place.rating 4.0
    location := jsStrOr place.vicinity "Location not specified"
    photos := photoUrls apiKey place }

/-- Embeds `GooglePlacesService.convertToTravelSuggestions`: filter to
eligible places, map each to a suggestion, `slice(0, 6)`. -/
noncomputable def convertToTravelSuggestions (apiKey : String)
    (places : List GooglePlace) (userLat userLng : Option ℝ) : List TravelSuggestion :=
  (((places.filter isValidTravelDestination).map
    (fun place => mapPlaceToSuggestion apiKey place userLat userLng)).take 6)

/-- Embeds `GooglePlacesService.getFallbackSuggestions`: the static 3-item
fallback list. -/
noncomputable def getFallbackSuggestions : List TravelSuggestion :=
  [{ id := "fallback-1"
     name := "Local Discovery Walk"
     distance := "2.5km"
     travelTime := "30min"
     type := "Walking Tour"
     description := "Explore the charming streets and hidden gems of your neighborhood."
     highlights := ["Local culture", "Hidden spots", "Photo opportunities"]
     bestFor := ["Explorers", "Photography"]
     rating := 4.2
     location := "City Center"
     photos := [] },
   { id := "fallback-2"
     name := "Historic Downtown"
     distance := "5.1km"
     travelTime := "45min"
     type := "Historic District"
     description := "Discover the rich history and architecture of the downtown area."
     highlights := ["Historic buildings", "Local restaurants", "Shopping"]
     bestFor := ["History buffs", "Architecture lovers"]
     rating := 4.5
     location := "Downtown"
     photos := [] },
   { id := "fallback-3"
     name := "City Park & Gardens"
     distance := "3.8km"
     travelTime := "20min"
     type := "Park"
     description := "Relax and enjoy nature in the beautiful city park with gardens."
     highlights := ["Peaceful atmosphere", "Beautiful gardens", "Walking trails"]
     bestFor := ["Nature lovers", "Relaxation"]
     rating := 4.3
     location := "Park District"
     photos := [] }]

/-- Outcome of the call to the place-search collaborator
(`searchNearbyPlaces` either throws — network error, non-OK HTTP
status, provider error status, missing API key — or returns a list of
raw places). -/
inductive PlacesOutcome where
  | threw
  | returned (places : List GooglePlace)

/-- The inner try/catch of the `GET /api/location-suggestions` handler
in `routes.ts`: on a collaborator throw respond with the fallback list,
otherwise respond with the converted suggestions.  The handler passes
only `places` to `convertToTravelSuggestions`, so the requester
coordinate arguments are `undefined`. -/
noncomputable def locationSuggestionsResponse (apiKey : String) :
    PlacesOutcome → List TravelSuggestion
  | .threw => getFallbackSuggestions
  | .returned places => convertToTravelSuggestions apiKey places none none

/-- One activity of a day plan (the `activities` entries of interface
`DayPlan` in the openai module). -/
structure Activity where
  time : String
  period : String
  activity : String
  location : String
  duration : Option String
  cost : Option String
  notes : Option String

/-- A day plan of a generated itinerary (interface `DayPlan`). -/
structure DayPlan where
  day : ℕ
  date : String
  title : String
  activities : List Activity

/-- The `recommendations` block of a generated itinerary. -/
structure Recommendations where
  bestPhotoSpots : List String
  localTips : List String
  weatherAndPacking : List String

/-- A parsed generated itinerary payload (interface
`GeneratedItinerary` in the openai module). -/
structure GeneratedItinerary where
  title : String
  description : String
  duration : String
  days : List DayPlan
  recommendations : Recommendations

/-- A persisted itinerary record (the `itineraries` row type of the
shared schema).  Timestamps are abstracted as natural numbers. -/
structure Itinerary where
  id : ℕ
  userId : ℕ
  title : String
  description : Option String
  location : String
  startDate : String
  endDate : String
  tripType : String
  transport : String
  accommodation : String
  dining : String
  ageGroup : String
  interests : String
  generatedContent : Option GeneratedItinerary
  status : String
  createdAt : ℕ
  updatedAt : ℕ

/-- A `Partial<UpdateItinerary>` value: the schema restricts updates to
`title`, `description`, `generatedContent` and `status`; an outer
`none` means the key is absent from the updates object. -/
structure UpdateFields where
  title : Option String := none
  description : Option (Option String) := none
  generatedContent : Option (Option GeneratedItinerary) := none
  status : Option String := none

/-- The object spread `{...itinerary, ...updates, updatedAt: new
Date()}` of `MemStorage.updateItinerary`: fields present in the updates
object win, `updatedAt` is always set to the call time. -/
def applyUpdates (it : Itinerary) (u : UpdateFields) (now : ℕ) : Itinerary :=
  { it with
    title := u.title.getD it.title
    description := u.description.getD it.description
    generatedContent := u.generatedContent.getD it.generatedContent
    status := u.status.getD it.status
    updatedAt := now }

/-- The in-memory itinerary table of `MemStorage` (a `Map<number,
Itinerary>`), as a partial function from ids to records. -/
def Store : Type := ℕ → Option Itinerary

/-- Embeds `MemStorage.updateItinerary`: look the record up, return
`undefined` when absent, otherwise spread the updates over it, store
the result under the same key and return it. -/
def updateItinerary (store : Store) (id : ℕ) (u : UpdateFields) (now : ℕ) :
    Store × Option Itinerary :=
  match store id with
  | none => (store, none)
  | some it =>
    let updated := applyUpdates it u now
    (fun k => if k = id then some updated else store k, some updated)

/-- Outcome of the call to the generative-text collaborator
(`generateItinerary` in the openai module either throws — network
error, non-2xx, provider error, in which case its own catch rethrows
`Failed to generate itinerary` — or returns the parsed JSON payload). -/
inductive GenOutcome where
  | threw
  | returned (g : GeneratedItinerary)

/-- Response of the `POST /api/itineraries/:id/generate` handler. -/
inductive GenResponse where
  | ok (it : Option Itinerary)
  | notFound
  | accessDenied
  | failure

/-- Embeds the `POST /api/itineraries/:id/generate` handler of
`routes.ts` from the point where the request is authenticated as user
`uid`: fetch the record, 404 when absent, 403 when owned by another
user, then call the generative collaborator; the surrounding catch
turns a throw into the `Failed to generate itinerary` 500 response
without touching storage, while a returned payload is persisted via
`updateItinerary` with `status: "generated"`. -/
def generateRoute (store : Store) (uid id : ℕ) (outcome : GenOutcome)
    (now : ℕ) : Store × GenResponse :=
  match store id with
  | none => (store, .notFound)
  | some it =>
    if it.userId ≠ uid then (store, .accessDenied)
    else
      match outcome with
      | .threw => (store, .failure)
      | .returned g =>
        let r := updateItinerary store it.id
          { generatedContent := some (some g), status := some "generated" } now
        (r.1, .ok r.2)

/-- Modelled from the claim of C5 (not from the source): the display
type as the label of the first matching tag taken in the fixed priority
order `tourist_attraction > museum > amusement_park > zoo > aquarium >
art_gallery > park > natural_feature > point_of_interest`, regardless
of the order of the tags in the place's own tag list. -/
def claimPlaceType (place : GooglePlace) : String :=
  match (["tourist_attraction", "museum", "amusement_park", "zoo", "aquarium",
          "art_gallery", "park", "natural_feature", "point_of_interest"].find?
          (fun t => place.types.contains t)) with
  | some t => (typeMap t).getD "Attraction"
  | none => "Attraction"

/-- A concrete raw place listing the museum tag before the
tourist-attraction tag. -/
noncomputable def musTourPlace : GooglePlace :=
  { place_id := "p-mus", name := "City Museum", lat := 0, lng := 0,
    types := ["museum", "tourist_attraction"], rating := none,
    user_ratings_total := none, vicinity := none, photos := none }

/-- A concrete raw place carrying no whitelisted category tag. -/
noncomputable def ineligiblePlace : GooglePlace :=
  { place_id := "p-city", name := "City Hall", lat := 0, lng := 0,
    types := ["locality", "political"], rating := none,
    user_ratings_total := none, vicinity := none, photos := none }

/-- Structure update helper used to state that suggestions do not
depend on the place coordinates. -/
def setLocation (p : GooglePlace) (la ln : ℝ) : GooglePlace :=
  { p with lat := la, lng := ln }

lemma getPlaceTypeLoop_findSome (l : List String) :
    getPlaceTypeLoop l = (l.findSome? typeMap).getD "Attraction" := by
  induction l with
  | nil => rfl
  | cons t ts ih =>
    rw [getPlaceTypeLoop, List.findSome?_cons]
    cases typeMap t with
    | none => simpa using ih
    | some label => rfl

lemma haversineArg_symm (lat1 lng1 lat2 lng2 : ℝ) :
    Real.sin ((lat2 - lat1) * Real.pi / 180 / 2) * Real.sin ((lat2 - lat1) * Real.pi / 180 / 2) +
      Real.cos (lat1 * Real.pi / 180) * Real.cos (lat2 * Real.pi / 180) *
        Real.sin ((lng2 - lng1) * Real.pi / 180 / 2) * Real.sin ((lng2 - lng1) * Real.pi / 180 / 2) =
    Real.sin ((lat1 - lat2) * Real.pi / 180 / 2) * Real.sin ((lat1 - lat2) * Real.pi / 180 / 2) +
      Real.cos (lat2 * Real.pi / 180) * Real.cos (lat1 * Real.pi / 180) *
        Real.sin ((lng1 - lng2) * Real.pi / 180 / 2) * Real.sin ((lng1 - lng2) * Real.pi / 180 / 2) := by
  have h1 : (lat1 - lat2) * Real.pi / 180 / 2 = -((lat2 - lat1) * Real.pi / 180 / 2) := by ring
  have h2 : (lng1 - lng2) * Real.pi / 180 / 2 = -((lng2 - lng1) * Real.pi / 180 / 2) := by ring
  rw [h1, h2, Real.sin_neg, Real.sin_neg]
  ring

lemma travelTimeStrOf_five : travelTimeStrOf 5 = "8min" := by
  have h : jsRound ((5 : ℝ) / 40 * 60) = 8 := by norm_num [jsRound]
  simp only [travelTimeStrOf, h]
  norm_num
  rfl

lemma travelTimeStrOf_hundred : travelTimeStrOf 100 = "2h 30min" := by
  have h : jsRound ((100 : ℝ) / 40 * 60) = 150 := by norm_num [jsRound]
  simp only [travelTimeStrOf, h]
  norm_num
  rfl

lemma distanceStrOf_five : distanceStrOf 5 = "5.0km" := by
  have h : jsRound ((5 : ℝ) * 10) = 50 := by norm_num [jsRound]
  simp only [distanceStrOf, h]
  norm_num
  rfl

/-- C1 counterexample: a successful collaborator call whose only result
carries no whitelisted tag makes the eligible result set empty, and the
location-suggestions handler then responds with the empty list — not
with the 3-item fallback list. -/
theorem emptyEligible_returnsEmpty_not_fallback :
    locationSuggestionsResponse "" (.returned [ineligiblePlace]) = [] ∧
    getFallbackSuggestions ≠ [] ∧
    locationSuggestionsResponse "" (.returned [ineligiblePlace]) ≠ getFallbackSuggestions := by
  refine ⟨rfl, ?_, ?_⟩
  · simp [getFallbackSuggestions]
  · rw [show locationSuggestionsResponse "" (.returned [ineligiblePlace]) = [] from rfl]
    simp [getFallbackSuggestions]

/-- C1 (amended): if the place-search collaborator throws, the
location-suggestions handler returns the static 3-item fallback list
with ids fallback-1, fallback-2, fallback-3 and never propagates the
error; if the collaborator succeeds but the eligible result set is
empty, the handler returns the empty list (the fallback is not
substituted for emptiness). -/
theorem locationSuggestions_fallback_policy :
    (∀ key : String, locationSuggestionsResponse key .threw = getFallbackSuggestions) ∧
    getFallbackSuggestions.map (fun s => s.id) = ["fallback-1", "fallback-2", "fallback-3"] ∧
    getFallbackSuggestions.length = 3 ∧
    (∀ (key : String) (ps : List GooglePlace),
      ps.filter isValidTravelDestination = [] →
      locationSuggestionsResponse key (.returned ps) = []) := by
  refine ⟨fun key => rfl, rfl, rfl, ?_⟩
  intro key ps h
  simp [locationSuggestionsResponse, convertToTravelSuggestions, h]

theorem locationSuggestions_fallback_policy_witness :
    locationSuggestionsResponse "k" (.returned [ineligiblePlace]) = [] :=
  locationSuggestions_fallback_policy.2.2.2 "k" [ineligiblePlace] rfl

/-- C2: with the record present and owned by the requester, a throwing
generation call leaves the whole store — in particular the record's
status and generatedContent — exactly as it was, and the handler
signals a generation failure. -/
theorem generation_failure_preserves_record (store : Store) (uid id now : ℕ)
    (it : Itinerary) (h1 : store id = some it) (h2 : it.userId = uid) :
    (generateRoute store uid id .threw now).1 = store ∧
    (generateRoute store uid id .threw now).1 id = some it ∧
    (generateRoute store uid id .threw now).2 = .failure := by
  refine ⟨?_, ?_, ?_⟩ <;> simp [generateRoute, h1, h2]

/-- A concrete prior payload for the generation witnesses. -/
def priorPayload : GeneratedItinerary :=
  { title := "Old Rome Trip", description := "Earlier payload",
    duration := "3 Days", days := [],
    recommendations := { bestPhotoSpots := [], localTips := [], weatherAndPacking := [] } }

/-- A concrete freshly generated payload for the generation witnesses. -/
def freshPayload : GeneratedItinerary :=
  { title := "Rome Getaway", description := "Three days in Rome",
    duration := "3 Days", days := [],
    recommendations := { bestPhotoSpots := ["Trevi Fountain"], localTips := ["Walk early"],
                         weatherAndPacking := ["Light jacket"] } }

/-- A concrete already-generated itinerary record owned by user 7. -/
def sampleItinerary : Itinerary :=
  { id := 1, userId := 7, title := "Rome", description := none,
    location := "Rome", startDate := "2025-05-01", endDate := "2025-05-03",
    tripType := "couples", transport := "walking", accommodation := "hotel",
    dining := "local", ageGroup := "25-34", interests := "history",
    generatedContent := some priorPayload, status := "generated",
    createdAt := 0, updatedAt := 0 }

/-- A concrete one-record store holding `sampleItinerary` under id 1. -/
def sampleStore : Store :=
  fun k => if k = 1 then some sampleItinerary else none

theorem generation_failure_preserves_record_witness :
    (generateRoute sampleStore 7 1 .threw 5).1 = sampleStore ∧
    (generateRoute sampleStore 7 1 .threw 5).1 1 = some sampleItinerary ∧
    (generateRoute sampleStore 7 1 .threw 5).2 = .failure :=
  generation_failure_preserves_record sampleStore 7 1 5 sampleItinerary rfl rfl

/-- C3: with the record present, owned, and in status draft or
generated, a successful generation call responds with the updated
record, persists it under the same id, sets its status to generated and
replaces its generatedContent with the new payload, discarding any
prior payload; invoking it on an already-generated record is allowed
and leaves the status equal to generated. -/
theorem generation_success_sets_generated (store : Store) (uid id now : ℕ)
    (g : GeneratedItinerary) (it : Itinerary) (h1 : store id = some it)
    (hid : it.id = id) (h2 : it.userId = uid)
    (_h3 : it.status = "draft" ∨ it.status = "generated") :
    ∃ it2 : Itinerary,
      (generateRoute store uid id (.returned g) now).2 = .ok (some it2) ∧
      (generateRoute store uid id (.returned g) now).1 id = some it2 ∧
      it2.status = "generated" ∧
      it2.generatedContent = some g ∧
      it2.id = it.id ∧ it2.userId = it.userId ∧
      it2.updatedAt = now := by
  refine ⟨applyUpdates it
    { generatedContent := some (some g), status := some "generated" } now,
    ?_, ?_, rfl, rfl, rfl, rfl, rfl⟩
  · simp [generateRoute, h1, h2, hid, updateItinerary]
  · simp [generateRoute, h1, h2, hid, updateItinerary]

theorem generation_success_sets_generated_witness :
    ∃ it2 : Itinerary,
      (generateRoute sampleStore 7 1 (.returned freshPayload) 5).2 = .ok (some it2) ∧
      (generateRoute sampleStore 7 1 (.returned freshPayload) 5).1 1 = some it2 ∧
      it2.status = "generated" ∧
      it2.generatedContent = some freshPayload ∧
      it2.id = sampleItinerary.id ∧ it2.userId = sampleItinerary.userId ∧
      it2.updatedAt = 5 :=
  generation_success_sets_generated sampleStore 7 1 5 freshPayload sampleItinerary
    rfl rfl rfl (Or.inr rfl)

/-- C4: the ranker's output is at most 6 suggestions, and equals the
suggestions of the first (at most) 6 eligible places in input order —
truncation commutes with the per-place mapping, and no re-sorting by
distance or rating happens anywhere in the pipeline. -/
theorem convert_truncates_to_first_six_eligible (key : String)
    (ps : List GooglePlace) (ulat ulng : Option ℝ) :
    (convertToTravelSuggestions key ps ulat ulng).length ≤ 6 ∧
    convertToTravelSuggestions key ps ulat ulng =
      ((ps.filter isValidTravelDestination).take 6).map
        (fun p => mapPlaceToSuggestion key p ulat ulng) := by
  constructor
  · simp [convertToTravelSuggestions]
  · simp [convertToTravelSuggestions, List.map_take]

/-- C5 counterexample: a place whose tag list is
`["museum", "tourist_attraction"]` is classified as Museum by the code
(first matching tag in the place's own tag order), while the claimed
fixed priority order would classify it as Tourist Attraction. -/
theorem placeType_tag_order_counterexample :
    getPlaceType musTourPlace = "Museum" ∧
    claimPlaceType musTourPlace = "Tourist Attraction" ∧
    getPlaceType musTourPlace ≠ claimPlaceType musTourPlace := by
  refine ⟨rfl, rfl, ?_⟩
  rw [show getPlaceType musTourPlace = "Museum" from rfl,
    show claimPlaceType musTourPlace = "Tourist Attraction" from rfl]
  decide

/-- C5 (amended): the display type is the human label of the first tag
in the place's own tag-list order that has an entry in the label map
(tourist_attraction, museum, amusement_park, zoo, aquarium,
art_gallery, park, natural_feature, point_of_interest), and the default
label Attraction when no tag has an entry. -/
theorem placeType_first_mapped_tag (p : GooglePlace) :
    getPlaceType p = (p.types.findSome? typeMap).getD "Attraction" :=
  getPlaceTypeLoop_findSome p.types

/-- C6: the travel-time string of every emitted suggestion is computed
from the minute count round(d / 40 * 60) of the effective distance d —
a fixed 40 km/h speed, rounded to the nearest minute (half up) — and is
formatted as minutes below one hour and as hours and minutes otherwise;
concretely 5 km gives 8min and 100 km gives 2h 30min. -/
theorem travelTime_formula_spec :
    (∀ (key : String) (p : GooglePlace) (ulat ulng : Option ℝ),
      (mapPlaceToSuggestion key p ulat ulng).travelTime =
        travelTimeStrOf (effectiveDistanceKm p ulat ulng)) ∧
    (∀ d : ℝ, travelTimeStrOf d =
      (if jsRound (d / 40 * 60) < 60 then toString (jsRound (d / 40 * 60)) ++ "min"
       else toString (jsRound (d / 40 * 60) / 60) ++ "h " ++
         toString (jsRound (d / 40 * 60) % 60) ++ "min")) ∧
    (∀ d : ℝ, jsRound d = ⌊d + 1 / 2⌋) ∧
    travelTimeStrOf 5 = "8min" ∧
    travelTimeStrOf 100 = "2h 30min" :=
  ⟨fun _ _ _ _ => rfl, fun _ => rfl, fun _ => rfl,
    travelTimeStrOf_five, travelTimeStrOf_hundred⟩

/-- C7: the conversion from raw places to travel suggestions is a pure
function of its inputs — two invocations with identical place lists and
identical requester coordinates produce identical outputs, in
particular identical distance and travel-time strings. -/
theorem convert_deterministic (key1 key2 : String)
    (ps1 ps2 : List GooglePlace) (ulat1 ulat2 ulng1 ulng2 : Option ℝ)
    (hk : key1 = key2) (hp : ps1 = ps2) (ha : ulat1 = ulat2) (hb : ulng1 = ulng2) :
    convertToTravelSuggestions key1 ps1 ulat1 ulng1 =
      convertToTravelSuggestions key2 ps2 ulat2 ulng2 ∧
    (convertToTravelSuggestions key1 ps1 ulat1 ulng1).map (fun s => s.distance) =
      (convertToTravelSuggestions key2 ps2 ulat2 ulng2).map (fun s => s.distance) ∧
    (convertToTravelSuggestions key1 ps1 ulat1 ulng1).map (fun s => s.travelTime) =
      (convertToTravelSuggestions key2 ps2 ulat2 ulng2).map (fun s => s.travelTime) := by
  subst hk hp ha hb
  exact ⟨rfl, rfl, rfl⟩

theorem convert_deterministic_witness :
    convertToTravelSuggestions "k" [musTourPlace] (some 48.8566) (some 2.3522) =
      convertToTravelSuggestions "k" [musTourPlace] (some 48.8566) (some 2.3522) ∧
    (convertToTravelSuggestions "k" [musTourPlace] (some 48.8566) (some 2.3522)).map
        (fun s => s.distance) =
      (convertToTravelSuggestions "k" [musTourPlace] (some 48.8566) (some 2.3522)).map
        (fun s => s.distance) ∧
    (convertToTravelSuggestions "k" [musTourPlace] (some 48.8566) (some 2.3522)).map
        (fun s => s.travelTime) =
      (convertToTravelSuggestions "k" [musTourPlace] (some 48.8566) (some 2.3522)).map
        (fun s => s.travelTime) :=
  convert_deterministic "k" "k" [musTourPlace] [musTourPlace]
    (some 48.8566) (some 48.8566) (some 2.3522) (some 2.3522) rfl rfl rfl rfl

/-- C8: the haversine great-circle distance with Earth radius 6371 km
is symmetric in its two coordinates, and the distance from any
coordinate to itself is 0. -/
theorem calculateDistance_symm_self :
    (∀ lat1 lng1 lat2 lng2 : ℝ,
      calculateDistance lat1 lng1 lat2 lng2 = calculateDistance lat2 lng2 lat1 lng1) ∧
    (∀ lat lng : ℝ, calculateDistance lat lng lat lng = 0) := by
  constructor
  · intro lat1 lng1 lat2 lng2
    simp only [calculateDistance]
    rw [haversineArg_symm lat1 lng1 lat2 lng2]
  · intro lat lng
    simp [calculateDistance, atan2, Real.arctan_zero]

/-- C9: with the record present, updateItinerary returns the spread of
the updates over the prior record; every field outside the updatable
set keeps its prior value, each updatable field keeps its prior value
when its key is absent from the updates object, updatedAt is set to the
call time, and every other record of the store is untouched. -/
theorem updateItinerary_frame (store : Store) (id now : ℕ)
    (u : UpdateFields) (it : Itinerary) (h : store id = some it) :
    (updateItinerary store id u now).2 = some (applyUpdates it u now) ∧
    (updateItinerary store id u now).1 id = some (applyUpdates it u now) ∧
    (applyUpdates it u now).id = it.id ∧
    (applyUpdates it u now).userId = it.userId ∧
    (applyUpdates it u now).location = it.location ∧
    (applyUpdates it u now).startDate = it.startDate ∧
    (applyUpdates it u now).endDate = it.endDate ∧
    (applyUpdates it u now).tripType = it.tripType ∧
    (applyUpdates it u now).transport = it.transport ∧
    (applyUpdates it u now).accommodation = it.accommodation ∧
    (applyUpdates it u now).dining = it.dining ∧
    (applyUpdates it u now).ageGroup = it.ageGroup ∧
    (applyUpdates it u now).interests = it.interests ∧
    (applyUpdates it u now).createdAt = it.createdAt ∧
    (u.title = none → (applyUpdates it u now).title = it.title) ∧
    (u.description = none → (applyUpdates it u now).description = it.description) ∧
    (u.generatedContent = none →
      (applyUpdates it u now).generatedContent = it.generatedContent) ∧
    (u.status = none → (applyUpdates it u now).status = it.status) ∧
    (∀ v, u.title = some v → (applyUpdates it u now).title = v) ∧
    (∀ v, u.status = some v → (applyUpdates it u now).status = v) ∧
    (applyUpdates it u now).updatedAt = now ∧
    (∀ k, k ≠ id → (updateItinerary store id u now).1 k = store k) := by
  refine ⟨?_, ?_, rfl, rfl, rfl, rfl, rfl, rfl, rfl, rfl, rfl, rfl, rfl, rfl,
    ?_, ?_, ?_, ?_, ?_, ?_, rfl, ?_⟩
  · simp [updateItinerary, h]
  · simp [updateItinerary, h]
  · intro ht; simp [applyUpdates, ht]
  · intro hd; simp [applyUpdates, hd]
  · intro hg; simp [applyUpdates, hg]
  · intro hs; simp [applyUpdates, hs]
  · intro v hv; simp [applyUpdates, hv]
  · intro v hv; simp [applyUpdates, hv]
  · intro k hk; simp [updateItinerary, h, hk]

/-- A concrete partial update carrying only a new title. -/
def titleOnlyUpdate : UpdateFields :=
  { title := some "Renamed Rome Trip" }

theorem updateItinerary_frame_witness :
    (updateItinerary sampleStore 1 titleOnlyUpdate 5).2 =
      some (applyUpdates sampleItinerary titleOnlyUpdate 5) ∧
    (updateItinerary sampleStore 1 titleOnlyUpdate 5).1 1 =
      some (applyUpdates sampleItinerary titleOnlyUpdate 5) ∧
    (applyUpdates sampleItinerary titleOnlyUpdate 5).id = sampleItinerary.id ∧
    (applyUpdates sampleItinerary titleOnlyUpdate 5).userId = sampleItinerary.userId ∧
    (applyUpdates sampleItinerary titleOnlyUpdate 5).location = sampleItinerary.location ∧
    (applyUpdates sampleItinerary titleOnlyUpdate 5).startDate = sampleItinerary.startDate ∧
    (applyUpdates sampleItinerary titleOnlyUpdate 5).endDate = sampleItinerary.endDate ∧
    (applyUpdates sampleItinerary titleOnlyUpdate 5).tripType = sampleItinerary.tripType ∧
    (applyUpdates sampleItinerary titleOnlyUpdate 5).transport = sampleItinerary.transport ∧
    (applyUpdates sampleItinerary titleOnlyUpdate 5).accommodation =
      sampleItinerary.accommodation ∧
    (applyUpdates sampleItinerary titleOnlyUpdate 5).dining = sampleItinerary.dining ∧
    (applyUpdates sampleItinerary titleOnlyUpdate 5).ageGroup = sampleItinerary.ageGroup ∧
    (applyUpdates sampleItinerary titleOnlyUpdate 5).interests = sampleItinerary.interests ∧
    (applyUpdates sampleItinerary titleOnlyUpdate 5).createdAt = sampleItinerary.createdAt ∧
    (titleOnlyUpdate.title = none →
      (applyUpdates sampleItinerary titleOnlyUpdate 5).title = sampleItinerary.title) ∧
    (titleOnlyUpdate.description = none →
      (applyUpdates sampleItinerary titleOnlyUpdate 5).description =
        sampleItinerary.description) ∧
    (titleOnlyUpdate.generatedContent = none →
      (applyUpdates sampleItinerary titleOnlyUpdate 5).generatedContent =
        sampleItinerary.generatedContent) ∧
    (titleOnlyUpdate.status = none →
      (applyUpdates sampleItinerary titleOnlyUpdate 5).status = sampleItinerary.status) ∧
    (∀ v, titleOnlyUpdate.title = some v →
      (applyUpdates sampleItinerary titleOnlyUpdate 5).title = v) ∧
    (∀ v, titleOnlyUpdate.status = some v →
      (applyUpdates sampleItinerary titleOnlyUpdate 5).status = v) ∧
    (applyUpdates sampleItinerary titleOnlyUpdate 5).updatedAt = 5 ∧
    (∀ k, k ≠ 1 → (updateItinerary sampleStore 1 titleOnlyUpdate 5).1 k = sampleStore k) :=
  updateItinerary_frame sampleStore 1 5 titleOnlyUpdate sampleItinerary rfl

/-- C10: whenever a requester coordinate is absent or equal to 0 (the
JavaScript truthiness test treats 0 like undefined), the effective
distance is the fixed 5 km fallback and the emitted strings are 5.0km
and 8min; the location-suggestions handler always converts with absent
requester coordinates, and its output is invariant under arbitrary
changes of the place coordinates. -/
theorem fallback_distance_and_coordinate_independence :
    (∀ (key : String) (p : GooglePlace) (ulat ulng : Option ℝ),
      (ulat = none ∨ ulat = some 0 ∨ ulng = none ∨ ulng = some 0) →
      effectiveDistanceKm p ulat ulng = 5 ∧
      (mapPlaceToSuggestion key p ulat ulng).distance = "5.0km" ∧
      (mapPlaceToSuggestion key p ulat ulng).travelTime = "8min") ∧
    (∀ (key : String) (ps : List GooglePlace),
      locationSuggestionsResponse key (.returned ps) =
        convertToTravelSuggestions key ps none none) ∧
    (∀ (key : String) (ps : List GooglePlace) (f : GooglePlace → ℝ × ℝ),
      convertToTravelSuggestions key
          (ps.map (fun p => setLocation p (f p).1 (f p).2)) none none =
        convertToTravelSuggestions key ps none none) := by
  refine ⟨?_, fun key ps => rfl, ?_⟩
  · intro key p ulat ulng h
    have h5 : effectiveDistanceKm p ulat ulng = 5 := by
      rcases h with h | h | h | h <;> subst h
      · rfl
      · cases ulng with
        | none => rfl
        | some ln => simp [effectiveDistanceKm]
      · cases ulat with
        | none => rfl
        | some la => rfl
      · cases ulat with
        | none => rfl
        | some la => simp [effectiveDistanceKm]
    refine ⟨h5, ?_, ?_⟩
    · rw [show (mapPlaceToSuggestion key p ulat ulng).distance =
        distanceStrOf (effectiveDistanceKm p ulat ulng) from rfl, h5]
      exact distanceStrOf_five
    · rw [show (mapPlaceToSuggestion key p ulat ulng).travelTime =
        travelTimeStrOf (effectiveDistanceKm p ulat ulng) from rfl, h5]
      exact travelTimeStrOf_five
  · intro key ps f
    simp only [convertToTravelSuggestions]
    congr 1
    induction ps with
    | nil => rfl
    | cons p ps ih =>
      simp only [List.map_cons, List.filter_cons]
      have hv : isValidTravelDestination (setLocation p (f p).1 (f p).2) =
          isValidTravelDestination p := rfl
      rw [hv]
      cases isValidTravelDestination p with
      | true => simp only [if_pos, List.map_cons, ih]; rfl
      | false => simpa using ih

theorem fallback_distance_witness :
    effectiveDistanceKm musTourPlace none (some 2.3522) = 5 ∧
    (mapPlaceToSuggestion "k" musTourPlace none (some 2.3522)).distance = "5.0km" ∧
    (mapPlaceToSuggestion "k" musTourPlace none (some 2.3522)).travelTime = "8min" :=
  fallback_distance_and_coordinate_independence.1 "k" musTourPlace none
    (some 2.3522) (Or.inl rfl)
